import Mathlib

/-!
Verification development for the maths-agent workflow orchestration engine.

The definitions below are a shallow embedding of the Python sources of the
repository (backend/workflow-service, backend/qc-service, backend/shared).
Pure functions become Lean functions; methods that perform HTTP calls or
Celery enqueues are modelled as pure functions that return, next to their
result, the ordered list of externally visible operations they perform
(an `Effect` trace).  Exceptions raised by the Python code are modelled
with `Option`/`Except` values.  Python floats (QC scores) are modelled
with rationals; none of the verified properties depends on rounding.
-/

namespace MathsAgent

/-! ## state_machine.py — states, events, transition table

Embedding of backend/workflow-service/workflow/state_machine.py.
-/

/-- BLOCK_STATES from state_machine.py (the 14 declared FSM states). -/
def BLOCK_STATES : List String :=
  ["pending_generation", "generation_in_progress", "generation_failed",
   "qc_pending", "qc_in_progress", "qc_failed", "qc_passed",
   "refinement_pending", "refinement_in_progress", "refinement_failed",
   "pending_validation", "validated", "archived", "critical_error"]

/-- EVENTS from state_machine.py: a dictionary from event key to a French
human-readable description.  The Python modules that drive the FSM index
this dictionary and (erroneously) pass the description where the key is
expected; the association list keeps both so that behaviour is preserved. -/
def EVENTS : List (String × String) :=
  [("GENERATE_STARTED", "Génération démarrée"),
   ("GENERATE_SUCCESS", "Génération réussie"),
   ("GENERATE_FAILED", "Génération échouée"),
   ("QC_STARTED", "QC démarré"),
   ("QC_PASSED", "QC réussi"),
   ("QC_FAILED", "QC échoué"),
   ("REFINEMENT_NEEDED", "Raffinement nécessaire"),
   ("REFINEMENT_STARTED", "Raffinement démarré"),
   ("REFINEMENT_SUCCESS", "Raffinement réussi"),
   ("REFINEMENT_FAILED", "Raffinement échouée"),
   ("USER_VALIDATE", "Validation utilisateur"),
   ("USER_REDO", "Demande de raffinement par l\x27utilisateur"),
   ("ARCHIVE", "Archivage du bloc"),
   ("CRITICAL_FAIL", "Échec critique")]

/-- Dictionary access EVENTS[k]; every key the sources use is present, so
the KeyError default is dead code. -/
def events_val (k : String) : String :=
  ((EVENTS.lookup k).getD ("KeyError: " ++ k))

/-- Static transition dictionary of
ContentBlockStateMachine._get_allowed_transitions, as the dict-of-dicts
the Python method declares: outer key the source state, inner key the
event, value the target state. -/
def transitions_dict : List (String × List (String × String)) :=
  [("pending_generation", [("GENERATE_STARTED", "generation_in_progress")]),
   ("generation_in_progress",
     [("GENERATE_SUCCESS", "qc_pending"), ("GENERATE_FAILED", "generation_failed"),
      ("CRITICAL_FAIL", "critical_error")]),
   ("generation_failed", [("ARCHIVE", "archived")]),
   ("qc_pending", [("QC_STARTED", "qc_in_progress")]),
   ("qc_in_progress",
     [("QC_PASSED", "qc_passed"), ("QC_FAILED", "qc_failed"),
      ("CRITICAL_FAIL", "critical_error")]),
   ("qc_passed",
     [("USER_VALIDATE", "validated"), ("ARCHIVE", "archived"),
      ("REFINEMENT_NEEDED", "refinement_pending")]),
   ("qc_failed",
     [("REFINEMENT_NEEDED", "refinement_pending"), ("USER_REDO", "refinement_pending")]),
   ("refinement_pending", [("REFINEMENT_STARTED", "refinement_in_progress")]),
   ("refinement_in_progress",
     [("REFINEMENT_SUCCESS", "qc_pending"), ("REFINEMENT_FAILED", "refinement_failed"),
      ("CRITICAL_FAIL", "critical_error")]),
   ("refinement_failed", [("ARCHIVE", "archived")]),
   ("pending_validation",
     [("USER_VALIDATE", "validated"), ("USER_REDO", "refinement_pending")]),
   ("validated", [("ARCHIVE", "archived")]),
   ("critical_error", [("ARCHIVE", "archived")])]

/-- Cell lookup transitions.get(state, dict()).get(event) of
ContentBlockStateMachine._get_allowed_transitions: none for a missing
cell. -/
def transitions (state event : String) : Option String :=
  ((transitions_dict.lookup state).getD []).lookup event

/-- ContentBlockStateMachine._get_allowed_transitions: the mode-specific
early returns come first, then the table lookup. -/
def get_allowed_transitions (mode current_state event : String) : List String :=
  if mode = "Supervisé" ∧ current_state = "qc_passed" ∧ event = "QC_PASSED" then
    ["pending_validation"]
  else if mode = "Supervisé" ∧ current_state = "qc_failed" ∧ event = "QC_FAILED" then
    ["refinement_pending"]
  else if mode = "Autonome" ∧ current_state = "qc_passed" ∧ event = "QC_PASSED" then
    ["validated"]
  else if mode = "Autonome" ∧ current_state = "qc_failed" ∧ event = "QC_FAILED" then
    ["refinement_pending"]
  else
    match transitions current_state event with
    | some s => [s]
    | none => []

/-- Payload of the InvalidWorkflowStateException raised by
ContentBlockStateMachine.transition: the current status together with the
event that was refused (the Python detail string interpolates the event). -/
structure InvalidWorkflowStateException where
  current_status : String
  attempted_action : String
deriving DecidableEq, Repr

deriving instance DecidableEq for Except

/-- One call to ContentBlockStateMachine.transition.  The first component
is the state of the machine after the call (the Python method assigns
self.current_state only after the allowed-transition check, so a raised
exception leaves the state unchanged); the second is the returned new
state or the raised exception.  The logging-only
_execute_transition_actions body performs no persisted operation and is
elided. -/
def transition_run (mode current_state event : String) :
    String × Except InvalidWorkflowStateException String :=
  match get_allowed_transitions mode current_state event with
  | [] => (current_state, Except.error ⟨current_state, event⟩)
  | s :: _ => (s, Except.ok s)

/-- Modelled from the spec: the transition table of section 4.2 of spec.md,
written as (source state, event, target state) triples.  The lowercase
event names of the spec are rendered with the uppercase keys of EVENTS
(generate_started = GENERATE_STARTED and so on).  The starred qc_passed
cell is included with its two mode-dependent targets, following the note
below the table. -/
def spec_transition_table : List (String × String × String) :=
  [("pending_generation", "GENERATE_STARTED", "generation_in_progress"),
   ("pending_generation", "ARCHIVE", "archived"),
   ("pending_generation", "CRITICAL_FAIL", "critical_error"),
   ("generation_in_progress", "GENERATE_SUCCESS", "qc_pending"),
   ("generation_in_progress", "GENERATE_FAILED", "generation_failed"),
   ("generation_in_progress", "CRITICAL_FAIL", "critical_error"),
   ("generation_failed", "ARCHIVE", "archived"),
   ("qc_pending", "QC_STARTED", "qc_in_progress"),
   ("qc_in_progress", "QC_PASSED", "qc_passed"),
   ("qc_in_progress", "QC_FAILED", "qc_failed"),
   ("qc_in_progress", "CRITICAL_FAIL", "critical_error"),
   ("qc_passed", "USER_VALIDATE", "validated"),
   ("qc_passed", "USER_REDO", "refinement_pending"),
   ("qc_passed", "ARCHIVE", "archived"),
   ("qc_failed", "REFINEMENT_STARTED", "refinement_in_progress"),
   ("qc_failed", "USER_REDO", "refinement_pending"),
   ("refinement_pending", "REFINEMENT_STARTED", "refinement_in_progress"),
   ("refinement_in_progress", "REFINEMENT_SUCCESS", "qc_pending"),
   ("refinement_in_progress", "REFINEMENT_FAILED", "refinement_failed"),
   ("refinement_in_progress", "CRITICAL_FAIL", "critical_error"),
   ("refinement_failed", "ARCHIVE", "archived"),
   ("pending_validation", "USER_VALIDATE", "validated"),
   ("pending_validation", "USER_REDO", "refinement_pending"),
   ("validated", "ARCHIVE", "archived")]

/-- The static transition dictionary of the code, flattened to
(source state, event, target state) triples. -/
def code_transition_triples : List (String × String × String) :=
  [("pending_generation", "GENERATE_STARTED", "generation_in_progress"),
   ("generation_in_progress", "GENERATE_SUCCESS", "qc_pending"),
   ("generation_in_progress", "GENERATE_FAILED", "generation_failed"),
   ("generation_in_progress", "CRITICAL_FAIL", "critical_error"),
   ("generation_failed", "ARCHIVE", "archived"),
   ("qc_pending", "QC_STARTED", "qc_in_progress"),
   ("qc_in_progress", "QC_PASSED", "qc_passed"),
   ("qc_in_progress", "QC_FAILED", "qc_failed"),
   ("qc_in_progress", "CRITICAL_FAIL", "critical_error"),
   ("qc_passed", "USER_VALIDATE", "validated"),
   ("qc_passed", "ARCHIVE", "archived"),
   ("qc_passed", "REFINEMENT_NEEDED", "refinement_pending"),
   ("qc_failed", "REFINEMENT_NEEDED", "refinement_pending"),
   ("qc_failed", "USER_REDO", "refinement_pending"),
   ("refinement_pending", "REFINEMENT_STARTED", "refinement_in_progress"),
   ("refinement_in_progress", "REFINEMENT_SUCCESS", "qc_pending"),
   ("refinement_in_progress", "REFINEMENT_FAILED", "refinement_failed"),
   ("refinement_in_progress", "CRITICAL_FAIL", "critical_error"),
   ("refinement_failed", "ARCHIVE", "archived"),
   ("pending_validation", "USER_VALIDATE", "validated"),
   ("pending_validation", "USER_REDO", "refinement_pending"),
   ("validated", "ARCHIVE", "archived"),
   ("critical_error", "ARCHIVE", "archived")]

/-- The full transition table the code implements in the given mode: the
mode-specific overrides of _get_allowed_transitions (which are consulted
first) followed by the static dictionary. -/
def code_transition_table (mode : String) : List (String × String × String) :=
  (if mode = "Supervisé" then
    [("qc_passed", "QC_PASSED", "pending_validation"),
     ("qc_failed", "QC_FAILED", "refinement_pending")]
   else if mode = "Autonome" then
    [("qc_passed", "QC_PASSED", "validated"),
     ("qc_failed", "QC_FAILED", "refinement_pending")]
   else []) ++ code_transition_triples

/-- Declarative one-step behaviour read off the flat table
code_transition_table: the matching entry gives the target state, a
missing entry gives an invalid_transition error with the state unchanged. -/
def code_table_step (mode s e : String) :
    String × Except InvalidWorkflowStateException String :=
  match (code_transition_table mode).find? (fun t => t.1 == s && t.2.1 == e) with
  | some t => (t.2.2, Except.ok t.2.2)
  | none => (s, Except.error ⟨s, e⟩)

/-! ## Shared configuration and data model

Embedding of the relevant parts of backend/shared/config.py and
backend/shared/models.py.
-/

/-- Settings.QC_VALIDATION_THRESHOLD from shared/config.py (default 70.0). -/
def QC_VALIDATION_THRESHOLD : ℚ := 70

/-- Settings.MAX_REFINEMENT_ATTEMPTS from shared/config.py (default 5). -/
def MAX_REFINEMENT_ATTEMPTS : Nat := 5

/-- Fields of a ContentBlockResponse that the workflow logic reads; the
content, timestamps and report payloads play no role in the verified
properties and are elided.  Identifiers are rendered as naturals. -/
structure ContentBlock where
  block_id : Nat
  status : String
  refinement_attempts : Nat
deriving DecidableEq, Repr

/-- Fields of the qc_report dictionary as the workflow logic reads them:
dict.get("status") and dict.get("overall_score", 0).  Scores are rendered
as rationals. -/
structure QcReportDict where
  status : Option String
  overall_score : Option ℚ
deriving DecidableEq, Repr

/-- Externally visible operations of the workflow logic: writes to the
persistence service and Celery task enqueues.  A function of the
embedding returns the ordered list of the operations it performs. -/
inductive Effect
  | update_block_status (block_id : Nat) (status : String)
  | create_content_block (block_id : Nat) (status : String) (refinement_attempts : Nat)
  | enqueue_generate_task (block_id : Nat) (is_refinement : Bool)
  | enqueue_run_qc_task (block_id : Nat)
  | enqueue_assemble_task
  | update_project_status (status : String)
  | update_task_status (status : String)
  | invoke_process_block_result (block_id : Nat)
  | invoke_advance_plan
deriving DecidableEq, Repr

/-- Exceptions the workflow logic raises (shared/exceptions.py):
BadRequestException, NotFoundException, the ValueError of
ContentBlockStateMachine.__init__ on a status outside BLOCK_STATES, and
InvalidWorkflowStateException. -/
inductive WorkflowError
  | bad_request (detail : String)
  | not_found (detail : String)
  | value_error (detail : String)
  | attribute_error (missing_method : String)
  | invalid_workflow_state (e : InvalidWorkflowStateException)
deriving DecidableEq, Repr

/-! ## autonomous_logic.py

Embedding of AutonomousLogic (backend/workflow-service/workflow/
autonomous_logic.py).  HTTP calls to the persistence service are modelled
by the Effect trace; the project and block fetched at entry are
arguments.
-/

/-- AutonomousLogic.process_generated_block_result.  The method checks the
mode, instantiates the FSM from the stored block status (the constructor
raises ValueError when that status is not in BLOCK_STATES), then branches
on the report: a passed report with a score at or above the threshold
takes the validation branch, otherwise a block with remaining attempts
takes the refinement branch, otherwise the exhaustion branch.  Every
branch first calls ContentBlockStateMachine.transition with the FRENCH
DESCRIPTION of the event (EVENTS of state_machine.py maps key to
description), not the key; a raised exception aborts the method before
any persistence write.  In the refinement branch the method archives the
old block, creates a refined copy with block id UUID(int=0) (rendered 0),
status qc_pending and an incremented attempt counter, enqueues the
generation task for it, and then writes the description of
REFINEMENT_STARTED as the status of the new block. -/
def process_generated_block_result (mode : String) (block : ContentBlock)
    (qc_report : QcReportDict) : List Effect × Option WorkflowError :=
  if mode ≠ "Autonome" then ([], some (.bad_request "mode"))
  else if block.status ∉ BLOCK_STATES then ([], some (.value_error block.status))
  else
    let qc_score := qc_report.overall_score.getD 0
    if qc_report.status = some "passed" ∧ qc_score ≥ QC_VALIDATION_THRESHOLD then
      match transition_run mode block.status (events_val "QC_PASSED") with
      | (_, Except.error e) => ([], some (.invalid_workflow_state e))
      | (_, Except.ok new_status) =>
          ([.update_block_status block.block_id new_status, .invoke_advance_plan], none)
    else if block.refinement_attempts < MAX_REFINEMENT_ATTEMPTS then
      match transition_run mode block.status (events_val "QC_FAILED") with
      | (_, Except.error e) => ([], some (.invalid_workflow_state e))
      | (_, Except.ok new_status) =>
          ([.update_block_status block.block_id new_status,
            .update_block_status block.block_id "archived",
            .create_content_block 0 "qc_pending" (block.refinement_attempts + 1),
            .enqueue_generate_task 0 true,
            .update_block_status 0 (events_val "REFINEMENT_STARTED")], none)
    else
      match transition_run mode block.status (events_val "REFINEMENT_FAILED") with
      | (_, Except.error e) => ([], some (.invalid_workflow_state e))
      | (_, Except.ok new_status) =>
          ([.update_block_status block.block_id new_status, .invoke_advance_plan], none)

/-- Loop of AutonomousLogic._advance_autonomous_plan that computes
all_blocks_processed: true iff every block status of the current version
lies in the listed set (vacuously true for no blocks). -/
def all_blocks_processed : List String → Bool
  | [] => true
  | s :: rest =>
      if s ∈ ["validated", "generation_failed", "refinement_failed", "archived"] then
        all_blocks_processed rest
      else false

/-- AutonomousLogic._advance_autonomous_plan on the path where the project
has a current document version, as a function of the statuses of the
blocks of that version: when all blocks are processed the project is set
to completed, the assembly task is enqueued and the project is set to
export_pending; otherwise the method only logs and performs nothing. -/
def advance_autonomous_plan (block_statuses : List String) : List Effect :=
  if all_blocks_processed block_statuses then
    [.update_project_status "completed", .enqueue_assemble_task,
     .update_project_status "export_pending"]
  else []

/-! ## workflow_tasks.py

Embedding of the Celery task bodies (backend/workflow-service/tasks/
workflow_tasks.py) on their success paths; the generation, QC and
persistence services are assumed to answer, and the service responses are
arguments.
-/

/-- Success path of generate_content_block_task: the block status is first
set to the DESCRIPTION of GENERATE_STARTED (or of REFINEMENT_STARTED for
a refinement), the external service is called, the block is then updated
with the generated content and the DESCRIPTION of GENERATE_SUCCESS (or of
REFINEMENT_SUCCESS), and the QC task is enqueued. -/
def generate_content_block_task (block : ContentBlock) (is_refinement : Bool) :
    List Effect × Option WorkflowError :=
  ([.update_block_status block.block_id
      (if is_refinement then events_val "REFINEMENT_STARTED" else events_val "GENERATE_STARTED"),
    .update_block_status block.block_id
      (if is_refinement then events_val "REFINEMENT_SUCCESS" else events_val "GENERATE_SUCCESS"),
    .enqueue_run_qc_task block.block_id], none)

/-- Success path of run_qc_task: the block status is set to the
DESCRIPTION of QC_STARTED, the QC service is called, the block is updated
with the report and with the DESCRIPTION of QC_PASSED or QC_FAILED, and
in autonomous mode process_generated_block_result is invoked on the
refetched block (which now carries the status just written); in
supervised mode nothing further happens. -/
def run_qc_task (mode : String) (block : ContentBlock) (qc_report : QcReportDict) :
    List Effect × Option WorkflowError :=
  let qc_status_write :=
    if qc_report.status = some "passed" then events_val "QC_PASSED" else events_val "QC_FAILED"
  let tr1 := [Effect.update_block_status block.block_id (events_val "QC_STARTED"),
              Effect.update_block_status block.block_id qc_status_write]
  if mode = "Autonome" then
    let res := process_generated_block_result mode { block with status := qc_status_write } qc_report
    (tr1 ++ Effect.invoke_process_block_result block.block_id :: res.1, res.2)
  else (tr1, none)

/-! ## supervisor_logic.py

Embedding of SupervisorLogic.handle_user_signal (backend/workflow-service/
workflow/supervisor_logic.py).
-/

/-- Fields of a WorkflowSignal that handle_user_signal reads.  The
feedback payload itself is only forwarded to the refinement task and is
elided. -/
structure WorkflowSignal where
  signal_type : String
  has_feedback : Bool
deriving DecidableEq, Repr

/-- SupervisorLogic.handle_user_signal: after the mode check the FSM is
instantiated from the stored block status when a block was loaded (its
constructor raises ValueError outside BLOCK_STATES); the VALIDATED and
REDO branches call ContentBlockStateMachine.transition with the FRENCH
DESCRIPTION of USER_VALIDATE and USER_REDO respectively, and only after a
successful transition write the new status (and, for REDO, enqueue the
refinement task); ALL_APPROVED requires project status completed and
enqueues assembly.  A raised exception aborts the method with no
persistence write and no enqueue. -/
def handle_user_signal (project_mode project_status : String)
    (block : Option ContentBlock) (signal : WorkflowSignal) :
    List Effect × Option WorkflowError :=
  if project_mode ≠ "Supervisé" then ([], some (.bad_request "mode"))
  else if (block.map (fun b => decide (b.status ∈ BLOCK_STATES))).getD true = false then
    ([], some (.value_error ((block.map ContentBlock.status).getD "")))
  else if signal.signal_type = "VALIDATED" then
    match block with
    | none => ([], some (.bad_request "block_id requis"))
    | some b =>
        match transition_run project_mode b.status (events_val "USER_VALIDATE") with
        | (_, Except.error e) => ([], some (.invalid_workflow_state e))
        | (_, Except.ok new_status) => ([.update_block_status b.block_id new_status], none)
  else if signal.signal_type = "REDO" then
    match block with
    | none => ([], some (.bad_request "block_id et feedback requis"))
    | some b =>
        if signal.has_feedback = false then ([], some (.bad_request "block_id et feedback requis"))
        else
          match transition_run project_mode b.status (events_val "USER_REDO") with
          | (_, Except.error e) => ([], some (.invalid_workflow_state e))
          | (_, Except.ok new_status) =>
              ([.update_block_status b.block_id new_status,
                .enqueue_generate_task b.block_id true], none)
  else if signal.signal_type = "ALL_APPROVED" then
    if project_status ≠ "completed" then ([], some (.bad_request "non finalisable"))
    else ([.enqueue_assemble_task, .update_project_status "export_pending"], none)
  else ([], some (.bad_request signal.signal_type))

/-! ## planner.py

Embedding of AutonomousPlanner (backend/workflow-service/workflow/
planner.py).  The document_structure dictionary becomes a tree of
records; the plan steps (Python dictionaries tagged by a type key) become
an inductive type.
-/

/-- Block reference inside a section of the content structure. -/
structure BlockRef where
  block_id : String
  block_type : String
deriving DecidableEq, Repr

/-- Section node of the content structure. -/
structure SectionNode where
  section_id : String
  blocks : List BlockRef
deriving DecidableEq, Repr

/-- Chapter node of the content structure. -/
structure ChapterNode where
  chapter_id : String
  title : String
  sections : List SectionNode
deriving DecidableEq, Repr

/-- Content structure of a document version (ordered tree of chapters,
sections and block references). -/
structure ContentStructure where
  chapters : List ChapterNode
deriving DecidableEq, Repr

/-- Plan steps produced by AutonomousPlanner.generate_initial_plan, one
constructor per value of the type key of the Python step dictionaries. -/
inductive PlanStep
  | checkpoint (checkpoint_type chapter_id title : String)
  | generate_block (block_id block_type section_id chapter_id : String)
  | final_assembly (document_version_id : String)
deriving DecidableEq, Repr

/-- AutonomousPlanner.generate_initial_plan: one chapter_start checkpoint
per chapter followed by one generate_block step per block reference of
its sections, and a trailing final_assembly step. -/
def generate_initial_plan (document_structure : ContentStructure)
    (document_version_id : String) : List PlanStep :=
  ((document_structure.chapters.map (fun c =>
      PlanStep.checkpoint "chapter_start" c.chapter_id c.title ::
        (c.sections.map (fun sec =>
          sec.blocks.map (fun b =>
            PlanStep.generate_block b.block_id b.block_type sec.section_id c.chapter_id))).flatten)).flatten)
  ++ [PlanStep.final_assembly document_version_id]

/-- Skip test of AutonomousPlanner.get_next_task_in_plan: a generate_block
step is skipped iff the block with the same id among the fetched content
blocks (rendered as pairs of id and status) has a status among validated,
generation_failed, refinement_failed, archived; a step with no matching
block, and every checkpoint or final_assembly step, is not skipped. -/
def plan_step_skipped (all_content_blocks : List (String × String)) : PlanStep → Bool
  | PlanStep.generate_block bid _ _ _ =>
      match all_content_blocks.find? (fun b => b.1 == bid) with
      | some b =>
          decide (b.2 ∈ ["validated", "generation_failed", "refinement_failed", "archived"])
      | none => false
  | _ => false

/-- Index walk of AutonomousPlanner.get_next_task_in_plan: past the end of
the plan the walk returns none; a skipped step recurses on the next
index; any other step is returned. -/
def get_next_from (plan : List PlanStep) (all_content_blocks : List (String × String))
    (i : Nat) : Option PlanStep :=
  if _h : plan.length ≤ i then none
  else
    let step := plan.get ⟨i, by omega⟩
    if plan_step_skipped all_content_blocks step then
      get_next_from plan all_content_blocks (i + 1)
    else some step
termination_by plan.length - i
decreasing_by omega

/-- AutonomousPlanner.get_next_task_in_plan: the plan is regenerated from
the content structure of the version and walked from current_plan_index. -/
def get_next_task_in_plan (document_structure : ContentStructure)
    (document_version_id : String) (all_content_blocks : List (String × String))
    (current_plan_index : Nat) : Option PlanStep :=
  get_next_from (generate_initial_plan document_structure document_version_id)
    all_content_blocks current_plan_index

/-! ## score_calculator.py

Embedding of ScoreCalculator (backend/qc-service/qc/score_calculator.py).
-/

/-- Fields of a QCProblem that the score calculator reads (description,
location and suggested_fix are carried along unchanged and elided). -/
structure QCProblem where
  problem_type : String
  severity : String
deriving DecidableEq, Repr

/-- Math sub-report as read by the calculator: dict.get("confidence", 0.0)
and the problems list. -/
structure MathReportDict where
  confidence : Option ℚ
  problems : List QCProblem
deriving DecidableEq, Repr

/-- Pedagogic or coherence sub-report as read by the calculator:
dict.get("score", 0.0) and the problems list. -/
structure SubReportDict where
  score : Option ℚ
  problems : List QCProblem
deriving DecidableEq, Repr

/-- QCReport as produced by the calculator (details elided). -/
structure QCReport where
  overall_score : ℚ
  status : String
  problems : List QCProblem
deriving DecidableEq, Repr

/-- ScoreCalculator.severity_penalties with the dict.get default 0. -/
def severity_penalties (severity : String) : ℚ :=
  if severity = "critical" then 50
  else if severity = "major" then 20
  else if severity = "minor" then 5
  else if severity = "warning" then 0
  else 0

/-- Penalty loop of ScoreCalculator.calculate_overall_score: each problem
subtracts its severity penalty, and a critical problem additionally caps
the running score at 20. -/
def apply_penalties : List QCProblem → ℚ → ℚ
  | [], s => s
  | p :: rest, s =>
      let s1 := s - severity_penalties p.severity
      let s2 := if p.severity = "critical" then min s1 20 else s1
      apply_penalties rest s2

/-- ScoreCalculator.calculate_overall_score: collect the problems of the
three sub-reports, form the weighted score (weights 0.5 math, 0.3
pedagogic, 0.2 coherence, with math confidence scaled from 0..1 to
0..100), apply the penalties, clamp to 0..100, derive the status from the
thresholds (90 passed, 60 partial_success, otherwise failed) and override
the status to failed whenever a critical problem is present. -/
def calculate_overall_score (math_report : MathReportDict)
    (pedagogic_report coherence_report : SubReportDict) : QCReport :=
  let problems := math_report.problems ++ pedagogic_report.problems ++ coherence_report.problems
  let math_score := (math_report.confidence.getD 0) * 100
  let pedagogic_score := pedagogic_report.score.getD 0
  let coherence_score := coherence_report.score.getD 0
  let weighted := (0.5 : ℚ) * math_score + (0.3 : ℚ) * pedagogic_score
      + (0.2 : ℚ) * coherence_score
  let after := apply_penalties problems weighted
  let overall := max (0 : ℚ) (min 100 after)
  let base_status :=
    if overall ≥ 90 then "passed"
    else if overall ≥ 60 then "partial_success"
    else "failed"
  let report_status :=
    if problems.any (fun p => p.severity == "critical") then "failed" else base_status
  ⟨overall, report_status, problems⟩

/-! ## state_manager.py and api/internal/endpoints.py

Embedding of complete_workflow_task (backend/workflow-service/api/
internal/endpoints.py).  The task row, project and block the handler
works with form a small world record.  The handler body first calls
workflow_state_manager.get_workflow_task_state and then
workflow_state_manager.update_workflow_task_state — but neither method is
defined on WorkflowStateManager in workflow/state_manager.py (the source
comment next to the first call itself notes the method does not exist
yet), so the attribute lookup raises AttributeError, which the generic
exception handler surfaces as an internal error response before any
write.  The embedding guards each of the two calls with a membership
test against the method set of WorkflowStateManager; the dispatch logic
below the guards is kept from the source text but is unreachable.
-/

/-- Methods defined on the WorkflowStateManager class of
workflow/state_manager.py.  Neither get_workflow_task_state nor
update_workflow_task_state is among them. -/
def workflow_state_manager_methods : List String :=
  ["get_project_state", "update_project_state", "get_content_block_state",
   "update_content_block_state", "create_content_block",
   "get_document_version_state", "get_all_content_blocks_for_version"]

/-- Fields of a workflow task row that the endpoint reads. -/
structure WorkflowTaskRow where
  task_type : String
  status : String
  block_id : Nat
  document_version_id : String
deriving DecidableEq, Repr

/-- Persisted state the endpoint interacts with. -/
structure IntakeWorld where
  task : WorkflowTaskRow
  project_mode : String
  project_status : String
  block : ContentBlock
deriving DecidableEq, Repr

/-- Replay of update_block_status effects onto the stored block. -/
def apply_block_effects (b : ContentBlock) : List Effect → ContentBlock
  | [] => b
  | Effect.update_block_status bid st :: rest =>
      apply_block_effects (if bid = b.block_id then { b with status := st } else b) rest
  | _ :: rest => apply_block_effects b rest

/-- complete_workflow_task: the handler first fetches the task row via
get_workflow_task_state — a method missing from WorkflowStateManager, so
every call, first delivery or duplicate, aborts here with AttributeError
(surfaced as an internal error) and the world is returned unchanged with
an empty trace.  The continuation below the two guards is retained from
the source text but unreachable: it would set the task row to completed
or failed with no duplicate check (via update_workflow_task_state, also
missing — and its argument datetime.now(timezone.utc) uses names the
module never imports), invoke process_generated_block_result for
generate_block, refine_block and run_qc tasks in autonomous mode, and
set the project status for assemble_document and export_document tasks. -/
def complete_workflow_task (w : IntakeWorld) (success : Bool) (qc_report : QcReportDict) :
    IntakeWorld × List Effect × Option WorkflowError :=
  if "get_workflow_task_state" ∉ workflow_state_manager_methods then
    (w, [], some (.attribute_error "get_workflow_task_state"))
  else if "update_workflow_task_state" ∉ workflow_state_manager_methods then
    (w, [], some (.attribute_error "update_workflow_task_state"))
  else
  let new_status := if success then "completed" else "failed"
  let w1 : IntakeWorld := { w with task.status := new_status }
  let tr0 := [Effect.update_task_status new_status]
  if w.task.task_type = "generate_block" ∨ w.task.task_type = "refine_block" then
    if w.project_mode = "Autonome" then
      let res := process_generated_block_result w.project_mode w1.block qc_report
      ({ w1 with block := apply_block_effects w1.block res.1 },
       tr0 ++ Effect.invoke_process_block_result w.task.block_id :: res.1, res.2)
    else (w1, tr0, none)
  else if w.task.task_type = "run_qc" then
    if w.project_mode = "Autonome" then
      let res := process_generated_block_result w.project_mode w1.block qc_report
      ({ w1 with block := apply_block_effects w1.block res.1 },
       tr0 ++ Effect.invoke_process_block_result w.task.block_id :: res.1, res.2)
    else (w1, tr0, none)
  else if w.task.task_type = "assemble_document" then
    if success then
      ({ w1 with project_status := "assembled" },
       tr0 ++ [Effect.update_project_status "assembled"], none)
    else
      ({ w1 with project_status := "assembly_failed" },
       tr0 ++ [Effect.update_project_status "assembly_failed"], none)
  else if w.task.task_type = "export_document" then
    if success then
      ({ w1 with project_status := "completed_exported" },
       tr0 ++ [Effect.update_project_status "completed_exported"], none)
    else
      ({ w1 with project_status := "export_failed" },
       tr0 ++ [Effect.update_project_status "export_failed"], none)
  else (w1, tr0, none)

/-! ## Helper lemmas shared by several developments -/

/-- Association-list fact: when no inner dictionary of an outer
dictionary carries the key d, the chained lookup of d is none for every
outer key. -/
theorem lookup_getD_lookup_none (d : String) :
    ∀ (dict : List (String × List (String × String))),
      (∀ p ∈ dict, p.2.lookup d = none) →
      ∀ s, ((dict.lookup s).getD []).lookup d = none := by
  intro dict
  induction dict with
  | nil => intro _ s; rfl
  | cons kv rest ih =>
      intro h s
      obtain ⟨k, v⟩ := kv
      have hv := h (k, v) (List.mem_cons_self _ _)
      cases hks : (s == k) with
      | true =>
          simp only [List.lookup, hks, Option.getD_some]
          exact hv
      | false =>
          simp only [List.lookup, hks]
          exact ih (fun p hp => h p (List.mem_cons_of_mem _ hp)) s

/-- Static transition table lookup of a French event description: no cell
of the dictionary is keyed by a description, so the lookup is empty for
every state. -/
theorem transitions_of_description (s d : String)
    (hd : d ∈ ["QC réussi", "QC échoué", "Raffinement échouée"]) :
    transitions s d = none := by
  have h : ∀ p ∈ transitions_dict, p.2.lookup d = none := by
    fin_cases hd <;> decide
  unfold transitions
  exact lookup_getD_lookup_none d transitions_dict h s

/-- Transition attempt with a French event description: the mode-specific
branches require the literal keys QC_PASSED or QC_FAILED and the static
table has no description key, so the call raises for every mode and every
state and leaves the state unchanged. -/
theorem transition_run_of_description (mode s d : String)
    (hd : d ∈ ["QC réussi", "QC échoué", "Raffinement échouée"]) :
    transition_run mode s d = (s, Except.error ⟨s, d⟩) := by
  have hallow : get_allowed_transitions mode s d = [] := by
    have h1 : d ≠ "QC_PASSED" := by fin_cases hd <;> decide
    have h2 : d ≠ "QC_FAILED" := by fin_cases hd <;> decide
    unfold get_allowed_transitions
    rw [if_neg (fun h => h1 h.2.2), if_neg (fun h => h2 h.2.2),
      if_neg (fun h => h1 h.2.2), if_neg (fun h => h2 h.2.2),
      transitions_of_description s d hd]
  unfold transition_run
  rw [hallow]

/-- AutonomousLogic.process_generated_block_result raises on every input:
each of its three branches passes a French event description to the FSM,
which refuses it, so the method never performs a persistence write. -/
theorem process_generated_block_result_always_raises
    (mode : String) (block : ContentBlock) (qc_report : QcReportDict) :
    (process_generated_block_result mode block qc_report).1 = []
  ∧ (process_generated_block_result mode block qc_report).2.isSome = true := by
  have e1 : transition_run mode block.status (events_val "QC_PASSED")
      = (block.status, Except.error ⟨block.status, events_val "QC_PASSED"⟩) :=
    transition_run_of_description mode block.status _ (by decide)
  have e2 : transition_run mode block.status (events_val "QC_FAILED")
      = (block.status, Except.error ⟨block.status, events_val "QC_FAILED"⟩) :=
    transition_run_of_description mode block.status _ (by decide)
  have e3 : transition_run mode block.status (events_val "REFINEMENT_FAILED")
      = (block.status, Except.error ⟨block.status, events_val "REFINEMENT_FAILED"⟩) :=
    transition_run_of_description mode block.status _ (by decide)
  constructor <;>
    · unfold process_generated_block_result
      simp only [e1, e2, e3]
      split_ifs <;> rfl

/-- Index walk of the planner, characterized: the walk from index i
returns the first step of the dropped plan that is not skipped. -/
theorem get_next_from_eq (plan : List PlanStep) (all_content_blocks : List (String × String)) :
    ∀ i, get_next_from plan all_content_blocks i
      = (plan.drop i).find? (fun st => !(plan_step_skipped all_content_blocks st)) := by
  have key : ∀ n i, plan.length - i ≤ n →
      get_next_from plan all_content_blocks i
        = (plan.drop i).find? (fun st => !(plan_step_skipped all_content_blocks st)) := by
    intro n
    induction n with
    | zero =>
        intro i h
        have hle : plan.length ≤ i := by omega
        unfold get_next_from
        rw [dif_pos hle, List.drop_eq_nil_of_le hle, List.find?_nil]
    | succ n ih =>
        intro i h
        by_cases hle : plan.length ≤ i
        · unfold get_next_from
          rw [dif_pos hle, List.drop_eq_nil_of_le hle, List.find?_nil]
        · push_neg at hle
          have hdrop : plan.drop i = plan[i] :: plan.drop (i + 1) :=
            List.drop_eq_getElem_cons hle
          unfold get_next_from
          rw [dif_neg (by omega)]
          simp only [List.get_eq_getElem]
          rw [hdrop]
          by_cases hsk : plan_step_skipped all_content_blocks plan[i] = true
          · rw [if_pos hsk, List.find?_cons_of_neg _ (by simp [hsk]),
              ih (i + 1) (by omega)]
          · rw [if_neg hsk, List.find?_cons_of_pos _ (by simp [hsk])]
  intro i
  exact key (plan.length - i) i (by omega)

/-! ## Theorems for claim C1 (Block FSM versus the table of spec section 4.2) -/

/-- C1 counterexample: the claim is false on the code.  From
pending_generation the events ARCHIVE and CRITICAL_FAIL are refused with
an invalid_transition error (the claim says they are accepted, to
archived and critical_error), and from critical_error the event ARCHIVE
is accepted and yields archived (the claim says no event is accepted from
critical_error), a triple that is not an entry of the table of spec
section 4.2.  Two further cells of the spec table are refused by the
code: user_redo from qc_passed (in both modes) and refinement_started
from qc_failed. -/
theorem C1_counterexample :
    transition_run "Supervisé" "pending_generation" "ARCHIVE"
        = ("pending_generation", Except.error ⟨"pending_generation", "ARCHIVE"⟩)
  ∧ transition_run "Supervisé" "pending_generation" "CRITICAL_FAIL"
        = ("pending_generation", Except.error ⟨"pending_generation", "CRITICAL_FAIL"⟩)
  ∧ transition_run "Supervisé" "critical_error" "ARCHIVE"
        = ("archived", Except.ok "archived")
  ∧ ("critical_error", "ARCHIVE", "archived") ∉ spec_transition_table
  ∧ transition_run "Supervisé" "qc_passed" "USER_REDO"
        = ("qc_passed", Except.error ⟨"qc_passed", "USER_REDO"⟩)
  ∧ transition_run "Autonome" "qc_passed" "USER_REDO"
        = ("qc_passed", Except.error ⟨"qc_passed", "USER_REDO"⟩)
  ∧ ("qc_passed", "USER_REDO", "refinement_pending") ∈ spec_transition_table
  ∧ transition_run "Supervisé" "qc_failed" "REFINEMENT_STARTED"
        = ("qc_failed", Except.error ⟨"qc_failed", "REFINEMENT_STARTED"⟩)
  ∧ ("qc_failed", "REFINEMENT_STARTED", "refinement_in_progress") ∈ spec_transition_table := by
  refine ⟨rfl, rfl, rfl, ?_, rfl, rfl, ?_, rfl, ?_⟩ <;> decide

/-- C1 (amended): for every declared state, every declared event and both
modes, one call to ContentBlockStateMachine.transition behaves exactly as
the flat table code_transition_table prescribes: a listed (state, event)
cell succeeds and moves the machine to the listed target, an unlisted
cell fails with an invalid_transition error carrying the state and the
event and leaves the state unchanged. -/
theorem C1_table_characterization :
    ∀ mode ∈ ["Supervisé", "Autonome"], ∀ s ∈ BLOCK_STATES,
      ∀ e ∈ EVENTS.map Prod.fst,
        transition_run mode s e = code_table_step mode s e := by decide

/-- C1 witness: the characterization instantiated at the autonomous
qc_in_progress / QC_PASSED cell. -/
theorem C1_table_characterization_witness :
    ("Autonome" ∈ ["Supervisé", "Autonome"]
      ∧ "qc_in_progress" ∈ BLOCK_STATES
      ∧ "QC_PASSED" ∈ EVENTS.map Prod.fst)
  ∧ transition_run "Autonome" "qc_in_progress" "QC_PASSED"
      = code_table_step "Autonome" "qc_in_progress" "QC_PASSED" :=
  ⟨⟨by decide, by decide, by decide⟩,
   C1_table_characterization "Autonome" (by decide) "qc_in_progress" (by decide)
     "QC_PASSED" (by decide)⟩

/-! ## Theorems for claims C2, C3, C4 (qc result handling) -/

/-- C2: the code fails where the claim expects validation.  For an
autonomous block in qc_in_progress with refinement_attempts 0 and a QC
report with status passed and overall_score exactly at the threshold
(70), process_generated_block_result takes the validation branch but
aborts with InvalidWorkflowStateException: it passes the French
description of QC_PASSED to the FSM, which is not an event key, so the
block is never set to validated and the plan never advances, and no
persistence write happens at all. -/
theorem C2_qc_passed_raises :
    process_generated_block_result "Autonome" ⟨1, "qc_in_progress", 0⟩
        ⟨some "passed", some 70⟩
      = ([], some (.invalid_workflow_state ⟨"qc_in_progress", "QC réussi"⟩)) := by
  decide

/-- C3: the code never parks a supervised block in pending_validation.
For a supervised block in qc_in_progress whose QC report has status
passed (score 85), run_qc_task writes the French DESCRIPTIONS of the
QC_STARTED and QC_PASSED events as the stored block status and enqueues
nothing further; the final written status is the description string, not
pending_validation, and is not even a member of BLOCK_STATES. -/
theorem C3_supervised_qc_never_pending_validation :
    run_qc_task "Supervisé" ⟨1, "qc_in_progress", 0⟩ ⟨some "passed", some 85⟩
        = ([.update_block_status 1 "QC démarré", .update_block_status 1 "QC réussi"], none)
  ∧ "QC réussi" ∉ BLOCK_STATES
  ∧ "QC réussi" ≠ "pending_validation" := by
  refine ⟨rfl, by decide, by decide⟩

/-- C4: the code fails where the claim expects refinement_failed.  For an
autonomous block in qc_in_progress whose refinement_attempts equal
MAX_REFINEMENT_ATTEMPTS (5) and whose QC report failed with score 40,
process_generated_block_result takes the exhaustion branch but aborts
with InvalidWorkflowStateException: it passes the French description of
REFINEMENT_FAILED to the FSM, so the block never reaches
refinement_failed, no error message is recorded and the plan never
advances. -/
theorem C4_exhausted_attempts_raise :
    process_generated_block_result "Autonome" ⟨1, "qc_in_progress", 5⟩
        ⟨some "failed", some 40⟩
      = ([], some (.invalid_workflow_state ⟨"qc_in_progress", "Raffinement échouée"⟩)) := by
  decide

/-! ## Theorems for claim C5 (project-level progress evaluation) -/

/-- C5 counterexample: with one validated block and one refinement_failed
block, _advance_autonomous_plan triggers assembly and never marks the
project needs_manual_review, the opposite of the claim. -/
theorem C5_counterexample :
    Effect.enqueue_assemble_task ∈ advance_autonomous_plan ["validated", "refinement_failed"]
  ∧ Effect.update_project_status "needs_manual_review"
      ∉ advance_autonomous_plan ["validated", "refinement_failed"] := by
  decide

/-- C5 (amended): when every block status of the current version lies in
the set {validated, generation_failed, refinement_failed, archived} —
regardless of the presence of refinement_failed — the plan advance marks
the project completed, enqueues document assembly and marks the project
export_pending; when some block status lies outside that set it performs
nothing; and it never marks the project needs_manual_review. -/
theorem C5_advance_characterization :
    ∀ block_statuses : List String,
      ((∀ s ∈ block_statuses,
          s ∈ ["validated", "generation_failed", "refinement_failed", "archived"]) →
        advance_autonomous_plan block_statuses
          = [.update_project_status "completed", .enqueue_assemble_task,
             .update_project_status "export_pending"])
    ∧ ((∃ s ∈ block_statuses,
          s ∉ ["validated", "generation_failed", "refinement_failed", "archived"]) →
        advance_autonomous_plan block_statuses = [])
    ∧ Effect.update_project_status "needs_manual_review"
        ∉ advance_autonomous_plan block_statuses := by
  have hall : ∀ l : List String,
      all_blocks_processed l = true ↔
        (∀ s ∈ l, s ∈ ["validated", "generation_failed", "refinement_failed", "archived"]) := by
    intro l
    induction l with
    | nil => simp [all_blocks_processed]
    | cons a rest ih =>
        by_cases ha : a ∈ ["validated", "generation_failed", "refinement_failed", "archived"]
        · simp only [all_blocks_processed, if_pos ha, ih]
          constructor
          · intro h
            intro s hs
            rcases List.mem_cons.mp hs with h1 | h2
            · rw [h1]; exact ha
            · exact h s h2
          · intro h s hs
            exact h s (List.mem_cons_of_mem a hs)
        · simp only [all_blocks_processed, if_neg ha]
          constructor
          · intro h; exact absurd h (by decide)
          · intro h
            exact absurd (h a (List.mem_cons_self a rest)) ha
  intro block_statuses
  refine ⟨?_, ?_, ?_⟩
  · intro h
    unfold advance_autonomous_plan
    rw [if_pos ((hall block_statuses).mpr h)]
  · rintro ⟨s, hs, hout⟩
    unfold advance_autonomous_plan
    rw [if_neg]
    intro hproc
    exact hout ((hall block_statuses).mp hproc s hs)
  · unfold advance_autonomous_plan
    by_cases hp : all_blocks_processed block_statuses = true
    · rw [if_pos hp]; decide
    · rw [if_neg hp]; decide

/-- C5 witness: the characterization instantiated on the two-block version
of the counterexample, discharging the all-processed hypothesis. -/
theorem C5_advance_characterization_witness :
    (∀ s ∈ ["validated", "refinement_failed"],
        s ∈ ["validated", "generation_failed", "refinement_failed", "archived"])
  ∧ advance_autonomous_plan ["validated", "refinement_failed"]
      = [.update_project_status "completed", .enqueue_assemble_task,
         .update_project_status "export_pending"] :=
  ⟨by decide, (C5_advance_characterization ["validated", "refinement_failed"]).1 (by decide)⟩

/-! ## Theorems for claim C6 (autonomous planner walk) -/

/-- C6 counterexample: on a one-chapter, one-section, one-block structure
with the plan index on the generate_block step, a block in critical_error
— terminal according to the claim — is NOT skipped (the step is returned
as the next task), and when the single block is validated (every slot
terminal) the planner returns the final_assembly step rather than the
no-next-task outcome none. -/
theorem C6_counterexample :
    get_next_task_in_plan ⟨[⟨"chap1", "Chapitre 1", [⟨"sec1.1", [⟨"b1", "definition"⟩]⟩]⟩]⟩
        "v1" [("b1", "critical_error")] 1
      = some (PlanStep.generate_block "b1" "definition" "sec1.1" "chap1")
  ∧ get_next_task_in_plan ⟨[⟨"chap1", "Chapitre 1", [⟨"sec1.1", [⟨"b1", "definition"⟩]⟩]⟩]⟩
        "v1" [("b1", "validated")] 1
      = some (PlanStep.final_assembly "v1") := by
  constructor <;>
    · unfold get_next_task_in_plan
      rw [get_next_from_eq]
      decide

/-- C6 (amended): the planner returns the first plan step at or after the
current index that is not a skipped generate_block step, where a
generate_block step is skipped iff its block has status validated,
generation_failed, refinement_failed or archived (critical_error blocks
are not skipped, checkpoint and final_assembly steps never are); in
particular it returns none exactly when every remaining step is skipped,
which never holds before the trailing final_assembly step is passed. -/
theorem C6_planner_walk_characterization :
    ∀ (document_structure : ContentStructure) (document_version_id : String)
      (all_content_blocks : List (String × String)) (current_plan_index : Nat),
      get_next_task_in_plan document_structure document_version_id
          all_content_blocks current_plan_index
        = ((generate_initial_plan document_structure document_version_id).drop
              current_plan_index).find?
            (fun st => !(plan_step_skipped all_content_blocks st))
    ∧ (get_next_task_in_plan document_structure document_version_id
          all_content_blocks current_plan_index = none ↔
        ∀ st ∈ (generate_initial_plan document_structure document_version_id).drop
            current_plan_index,
          plan_step_skipped all_content_blocks st = true) := by
  intro document_structure document_version_id all_content_blocks current_plan_index
  have h := get_next_from_eq
    (generate_initial_plan document_structure document_version_id)
    all_content_blocks current_plan_index
  refine ⟨h, ?_⟩
  unfold get_next_task_in_plan
  rw [h, List.find?_eq_none]
  constructor
  · intro hall st hst
    have := hall st hst
    simpa using this
  · intro hall st hst
    simp [hall st hst]

/-! ## Theorems for claim C7 (invalid user redo signal) -/

/-- C7: a REDO user signal for a supervised block whose current state does
not permit the USER_REDO event fails with an InvalidWorkflowStateException,
performs no persistence write and enqueues no refinement task. -/
theorem C7_invalid_redo_rejected :
    ∀ project_status : String, ∀ block_id attempts : Nat, ∀ s ∈ BLOCK_STATES,
      get_allowed_transitions "Supervisé" s "USER_REDO" = [] →
      handle_user_signal "Supervisé" project_status
          (some ⟨block_id, s, attempts⟩) ⟨"REDO", true⟩
        = ([], some (.invalid_workflow_state
            ⟨s, "Demande de raffinement par l\x27utilisateur"⟩)) := by
  intro project_status block_id attempts s hs _hredo
  fin_cases hs <;> rfl

/-- C7 witness: the rejection instantiated for a block in
generation_in_progress. -/
theorem C7_invalid_redo_rejected_witness :
    ("generation_in_progress" ∈ BLOCK_STATES
      ∧ get_allowed_transitions "Supervisé" "generation_in_progress" "USER_REDO" = [])
  ∧ handle_user_signal "Supervisé" "in_progress"
        (some ⟨7, "generation_in_progress", 0⟩) ⟨"REDO", true⟩
      = ([], some (.invalid_workflow_state
          ⟨"generation_in_progress", "Demande de raffinement par l\x27utilisateur"⟩)) :=
  ⟨⟨by decide, by decide⟩,
   C7_invalid_redo_rejected "in_progress" 7 0 "generation_in_progress" (by decide) (by decide)⟩


/-! ## Theorems for claim C8 (duplicate task completion) -/

/-- C8: the endpoint cannot process any task completion.  Its first
statement looks up the method get_workflow_task_state, which does not
exist on WorkflowStateManager, so every delivery — first or duplicate —
aborts with an AttributeError surfaced as an internal error, performs no
write, records no result and never drives the FSM; the idempotency the
claim describes (a second delivery returning the recorded prior result)
is therefore not implemented: nothing is ever recorded to return. -/
theorem C8_completion_never_processes :
    ∀ (w : IntakeWorld) (success : Bool) (qc_report : QcReportDict),
      complete_workflow_task w success qc_report
        = (w, [], some (.attribute_error "get_workflow_task_state")) := by
  intro w success qc_report
  unfold complete_workflow_task
  rw [if_pos (by decide)]

/-! ## Theorems for claim C9 (critical problems force a failed report) -/

/-- C9: every QCReport the score calculator produces satisfies the
invariant that the presence of a problem of severity critical forces the
report status to failed. -/
theorem C9_critical_implies_failed :
    ∀ (math_report : MathReportDict) (pedagogic_report coherence_report : SubReportDict),
      (∃ pr ∈ (calculate_overall_score math_report pedagogic_report
          coherence_report).problems, pr.severity = "critical") →
      (calculate_overall_score math_report pedagogic_report coherence_report).status
        = "failed" := by
  intro math_report pedagogic_report coherence_report h
  obtain ⟨pr, hmem, hcrit⟩ := h
  unfold calculate_overall_score at hmem ⊢
  simp only at hmem ⊢
  rw [if_pos (List.any_eq_true.mpr ⟨pr, hmem, by simp [hcrit]⟩)]

/-- C9 witness: a concrete report with one critical math problem. -/
theorem C9_critical_implies_failed_witness :
    (∃ pr ∈ (calculate_overall_score ⟨some 1, [⟨"math_error", "critical"⟩]⟩
        ⟨some 80, []⟩ ⟨some 90, []⟩).problems, pr.severity = "critical")
  ∧ (calculate_overall_score ⟨some 1, [⟨"math_error", "critical"⟩]⟩
      ⟨some 80, []⟩ ⟨some 90, []⟩).status = "failed" :=
  ⟨⟨⟨"math_error", "critical"⟩, by decide, rfl⟩,
   C9_critical_implies_failed ⟨some 1, [⟨"math_error", "critical"⟩]⟩
     ⟨some 80, []⟩ ⟨some 90, []⟩ ⟨⟨"math_error", "critical"⟩, by decide, rfl⟩⟩

/-! ## Theorems for claim C10 (statuses written to the store) -/

/-- C10: the statuses the workflow writes to the persistence store on the
paths named by the claim are the French EVENT DESCRIPTIONS, none of which
is a member of BLOCK_STATES: starting generation and on generation
success (generate_content_block_task), starting a refinement of a newly
created block and on refinement success (the same task with
is_refinement), and starting QC and recording its outcome (run_qc_task). -/
theorem C10_written_statuses_not_states :
    (generate_content_block_task ⟨1, "pending_generation", 0⟩ false).1
        = [.update_block_status 1 "Génération démarrée",
           .update_block_status 1 "Génération réussie",
           .enqueue_run_qc_task 1]
  ∧ (generate_content_block_task ⟨2, "refinement_pending", 1⟩ true).1
        = [.update_block_status 2 "Raffinement démarré",
           .update_block_status 2 "Raffinement réussi",
           .enqueue_run_qc_task 2]
  ∧ (run_qc_task "Supervisé" ⟨3, "qc_in_progress", 0⟩ ⟨some "failed", some 40⟩).1
        = [.update_block_status 3 "QC démarré", .update_block_status 3 "QC échoué"]
  ∧ (∀ s ∈ ["Génération démarrée", "Génération réussie", "Raffinement démarré",
        "Raffinement réussi", "QC démarré", "QC échoué"], s ∉ BLOCK_STATES) := by
  refine ⟨rfl, rfl, rfl, ?_⟩
  decide

end MathsAgent